import Mathlib

/-!
Shallow embedding of `src/frontend/src/App.js` (a voice-driven therapy /
meditation session client) and proofs about its session orchestration.

Modelling conventions:
* React `useState` variables become fields of an `AppState` structure; a
  setter call becomes a functional update of the corresponding field.
* `setInterval` callbacks become step functions on `AppState`
  (`countdownTick`, `checkInTick`); an interval being registered is a
  Boolean field (`timerArmed` for `timerRef`, and for the check-in effect
  the arming condition `isMeditating && lastCheckIn` is re-checked by the
  tick itself, exactly as the effect's dependency array re-arms it).
* A pending `setTimeout` becomes a Boolean flag (`pendingReset`,
  `pendingGreeting`, `pendingMeditation`); the timeout body is a separate
  function applied when the timeout fires (`sessionReset`).
* An awaited `axios` call becomes an explicit result parameter
  (`Option` of the payload): `some` is the 2xx path, `none` the thrown
  error path, whose `catch` blocks only log to the console.
* `Date.now()` becomes a `Nat` millisecond parameter; `Math.random()`
  index into the five canned responses becomes a `Fin 5` parameter.
* `Date` timestamps carried by messages are display-only and are not
  modelled; a `Message` is its `type` (role) and `content`.
-/

/-- JS string `includes` on lists of characters: `startsWithList s p` is
true when `p` is a prefix of `s`. -/
def startsWithList : List Char → List Char → Bool
  | _, [] => true
  | [], _ :: _ => false
  | c :: cs, p :: ps => c = p && startsWithList cs ps

/-- `containsList s p` is true when `p` occurs contiguously inside `s`. -/
def containsList : List Char → List Char → Bool
  | [], p => startsWithList [] p
  | c :: cs, p => startsWithList (c :: cs) p || containsList cs p

/-- JS `String.prototype.includes`, used by the code as
`therapeuticResponse.includes('meditation')`. -/
def strIncludes (s pat : String) : Bool :=
  containsList s.toList pat.toList

/-- JS `String.prototype.toLowerCase` (ASCII suffices here). -/
def lowerStr (s : String) : String :=
  String.mk (s.toList.map Char.toLower)

/-- Message roles: the code's `type` field values `'user' | 'therapist' |
'system'`. -/
inductive Role where
  | user
  | therapist
  | system
deriving DecidableEq, Repr

/-- One entry of the conversation log (`messages` state). The `timestamp:
new Date()` field is display-only and not modelled. -/
structure Message where
  type : Role
  content : String
deriving DecidableEq, Repr

/-- A `VOICE_PERSONAS` catalog entry (`App.js` lines 10-56). -/
structure Persona where
  id : String
  name : String
  title : String
  description : String
  color : String
  accent : String
  avatar : String
deriving DecidableEq, Repr

/-- The fixed persona catalog `VOICE_PERSONAS` (`App.js` lines 10-56). -/
def VOICE_PERSONAS : List Persona :=
  [ { id := "calm_female", name := "Dr. Serena", title := "Mindful Therapist",
      description := "Calm and nurturing therapeutic voice",
      color := "from-blue-400 to-indigo-500", accent := "#3B82F6", avatar := "🧘‍♀️" },
    { id := "wise_male", name := "Dr. Marcus", title := "Wise Counselor",
      description := "Deep and reassuring therapeutic guidance",
      color := "from-emerald-400 to-teal-500", accent := "#10B981", avatar := "🧘‍♂️" },
    { id := "gentle_guide", name := "Dr. Priya", title := "Gentle Guide",
      description := "Compassionate and understanding voice",
      color := "from-purple-400 to-pink-500", accent := "#8B5CF6", avatar := "🌸" },
    { id := "nature_spirit", name := "Dr. Forest", title := "Nature Therapist",
      description := "Grounding and earthy therapeutic presence",
      color := "from-green-400 to-emerald-500", accent := "#059669", avatar := "🌿" },
    { id := "zen_master", name := "Dr. Zen", title := "Mindfulness Expert",
      description := "Centered and peaceful guidance",
      color := "from-amber-400 to-orange-500", accent := "#F59E0B", avatar := "🕉️" } ]

/-- A `MEDITATION_SOUNDS` catalog entry (`App.js` lines 59-81). -/
structure Sound where
  id : String
  name : String
  description : String
  icon : String
  category : String
deriving DecidableEq, Repr

/-- The fixed meditation-sound catalog `MEDITATION_SOUNDS`. -/
def MEDITATION_SOUNDS : List Sound :=
  [ { id := "nature", name := "Forest Sounds",
      description := "Peaceful forest with gentle birds", icon := "🌲", category := "forest" },
    { id := "water", name := "Ocean Waves",
      description := "Calming ocean waves", icon := "🌊", category := "ocean" },
    { id := "rain", name := "Gentle Rain",
      description := "Soft rainfall for relaxation", icon := "🌧️", category := "rainfall" } ]

/-- A music track from `GET /api/music/{category}`; the payload is opaque
to the orchestration logic (only `musicTracks[0].preview_url` is read by
the render), so a track is modelled as its payload string. -/
abbrev Track := String

/-- The five `APP_STATES` values (`App.js` lines 84-90). -/
inductive AppStateTag where
  | voice_selection
  | timer_setup
  | active_session
  | meditation_selection
  | meditation_active
deriving DecidableEq, Repr

/-- The component's `useState` variables and timer/channel resources
(`App.js` lines 94-109), plus Booleans for registered intervals, the open
WebSocket, active speech recognition, and pending `setTimeout`s. -/
structure AppState where
  currentState : AppStateTag
  selectedPersona : Nat
  sessionMinutes : Nat
  currentSession : Option Nat
  messages : List Message
  remainingTime : Nat
  selectedSound : Option Sound
  musicTracks : List Track
  isMeditating : Bool
  lastCheckIn : Option Nat
  timerArmed : Bool
  wsOpen : Bool
  listening : Bool
  pendingGreeting : Bool
  pendingMeditation : Bool
  pendingReset : Bool
deriving DecidableEq, Repr

/-- The initial component state (`App.js` lines 94-109): `voice_selection`,
persona index 0, 15 minutes, no session, empty log, no timers. -/
def initialState : AppState :=
  { currentState := .voice_selection
    selectedPersona := 0
    sessionMinutes := 15
    currentSession := none
    messages := []
    remainingTime := 0
    selectedSound := none
    musicTracks := []
    isMeditating := false
    lastCheckIn := none
    timerArmed := false
    wsOpen := false
    listening := false
    pendingGreeting := false
    pendingMeditation := false
    pendingReset := false }

/-- The greeting appended on session start (`App.js` line 202). -/
def greetingText : String :=
  "Hey, how's your day! Do you want to share anything with me?"

/-- The closing message `endSession` appends (`App.js` lines 384-388). -/
def closingText : String :=
  "Thank you for sharing this time with me. Remember, you have the strength within you. Take care, and I hope you feel more centered now."

/-- The periodic check-in prompt (`App.js` lines 340-344). -/
def checkInText : String :=
  "How are you feeling now? Are you finding some peace in this moment?"

/-- The five canned therapist responses of `generateTherapistResponse`
(`App.js` lines 268-274); index 2 is the only one containing the word
"meditation". -/
def RESPONSES : List String :=
  [ "I hear you. That sounds like it's been weighing on you. Can you tell me more about how that makes you feel?",
    "Thank you for sharing that with me. It takes courage to open up. What's been your biggest challenge lately?",
    "I can sense there's a lot going on for you right now. Sometimes it helps to just breathe and be present. Would you like to try some meditation?",
    "Your feelings are completely valid. How has this been affecting your daily life?",
    "I appreciate your honesty. It sounds like you're dealing with a lot. What usually helps you feel more centered?" ]

/-- The canned response at the random index `Math.floor(Math.random() * responses.length)`. -/
def responseAt (r : Fin 5) : String :=
  RESPONSES.getD r.val ""

/-- `VOICE_PERSONAS[i]`; JS indexing is only ever used in-bounds (the index
invariant is proved below), so out-of-bounds defaults to the first entry. -/
def personaAt (i : Nat) : Persona :=
  VOICE_PERSONAS.getD i
    { id := "", name := "", title := "", description := "",
      color := "", accent := "", avatar := "" }

/-- `navigatePersona`'s index update (`App.js` lines 120-125): `'left'`
wraps 0 to `length - 1`, any other direction string takes the `else`
branch and steps right modulo the catalog length. -/
def navigatePersona (direction : String) (prev : Nat) : Nat :=
  if direction = "left" then
    if prev = 0 then VOICE_PERSONAS.length - 1 else prev - 1
  else
    (prev + 1) % VOICE_PERSONAS.length

/-- A `POST /api/generate-speech` request body (`App.js` lines 137-140):
the text to synthesize and the persona voice id. -/
structure SpeechRequest where
  message : String
  voice_persona : String
deriving DecidableEq, Repr

/-- The introduction request `speakIntroduction` builds (`App.js` lines
132-140) for the persona at index `selectedPersona`. -/
def speakIntroduction (selectedPersona : Nat) : SpeechRequest :=
  let persona := personaAt selectedPersona
  { message := "Hi, I'm " ++ persona.name ++ ", your " ++ persona.title ++
      ". We can start our conversation if you think I can help you out!"
    voice_persona := persona.id }

/-- The `navigatePersona` click handler (`App.js` lines 120-129): it
schedules the index update through `setSelectedPersona` and then calls
`speakIntroduction()`, whose body reads the `selectedPersona` variable of
the CURRENT render closure — i.e. the value from before the navigation,
because the scheduled state update has not been applied to this closure.
Returns the next state together with the speech request fired. -/
def navigatePersonaEvent (st : AppState) (direction : String) :
    AppState × SpeechRequest :=
  ({ st with selectedPersona := navigatePersona direction st.selectedPersona },
   speakIntroduction st.selectedPersona)

/-- The single shared `<audio>` element behind `audioRef`: `playing` is the
clip currently loaded and sounding, if any. -/
structure AudioElement where
  playing : Option String
deriving DecidableEq, Repr

/-- `playAudioFromBase64` (`App.js` lines 151-170): on a successful base64
decode it assigns `audioRef.current.src` and calls `play()`, which per
`HTMLMediaElement` semantics immediately replaces whatever clip was
sounding; a decode failure is caught (console only) and leaves the
element untouched. `decodeOk` models whether `atob` succeeded. -/
def playAudioFromBase64 (el : AudioElement) (clip : String) (decodeOk : Bool) :
    AudioElement :=
  if decodeOk then { playing := some clip } else el

/-- Modelled from the spec (section 4.3 "Audio Playback Queue", absent from
the code): at most one clip plays; a request while a clip is sounding only
replaces the pending-next slot and never interrupts the sounding clip. -/
structure AudioQueue where
  playing : Option String
  pendingNext : Option String
deriving DecidableEq, Repr

/-- Modelled from the spec: the queue's reaction to a new speech-clip
request (section 4.3) — start it if idle, otherwise overwrite the
pending-next slot (last request wins) leaving the sounding clip alone. -/
def enqueueClipSpec (q : AudioQueue) (clip : String) : AudioQueue :=
  match q.playing with
  | none => { playing := some clip, pendingNext := none }
  | some _ => { q with pendingNext := some clip }

/-- `startSession` (`App.js` lines 181-216). `result` is the awaited
`POST /api/session` outcome: `some sid` is the 2xx path, which stores the
session, sets `remainingTime := sessionMinutes * 60`, enters
`active_session`, arms the countdown (`startTimer`), opens the WebSocket,
REPLACES the message log with the greeting, schedules the delayed
`generateTherapistResponse(greeting)` call, and starts listening; `none`
is the thrown path, whose `catch` only logs — no state is touched. -/
def startSession (st : AppState) (result : Option Nat) : AppState :=
  match result with
  | some sid =>
      { st with
        currentSession := some sid
        remainingTime := st.sessionMinutes * 60
        currentState := .active_session
        timerArmed := true
        wsOpen := true
        messages := [{ type := .therapist, content := greetingText }]
        pendingGreeting := true
        listening := true }
  | none => st

/-- `endSession` (`App.js` lines 369-402): clears the countdown interval,
closes the WebSocket, stops listening, appends the closing message, and
schedules the 3000 ms reset timeout. It does NOT touch `isMeditating` or
`lastCheckIn`, so the check-in interval of the meditation effect stays
armed until the reset timeout fires. -/
def endSession (st : AppState) : AppState :=
  { st with
    timerArmed := false
    wsOpen := false
    listening := false
    messages := st.messages ++ [{ type := .therapist, content := closingText }]
    pendingReset := true }

/-- The body of `endSession`'s 3000 ms settle timeout (`App.js` lines
391-401): reset every session-scoped `useState` variable. -/
def sessionReset (st : AppState) : AppState :=
  { st with
    currentState := .voice_selection
    selectedPersona := 0
    sessionMinutes := 15
    currentSession := none
    messages := []
    remainingTime := 0
    selectedSound := none
    isMeditating := false
    lastCheckIn := none
    pendingReset := false }

/-- One firing of the `startTimer` countdown interval (`App.js` lines
322-332): while the interval is registered, `setRemainingTime` decrements;
when the previous value is `<= 1` it calls `endSession()` (which clears
this very interval) and stores 0. An unregistered interval never fires,
so the tick is the identity once disarmed. -/
def countdownTick (st : AppState) : AppState :=
  if st.timerArmed then
    if st.remainingTime ≤ 1 then
      { endSession st with remainingTime := 0 }
    else
      { st with remainingTime := st.remainingTime - 1 }
  else st

/-- One firing of the meditation check-in interval (`App.js` lines
335-351). The effect registers the interval exactly while
`isMeditating && lastCheckIn` holds (`lastCheckIn`, a `Date.now()` value,
is falsy only at 0); the callback appends the check-in prompt and resets
the baseline once five minutes have elapsed. `now` is `Date.now()`. -/
def checkInTick (now : Nat) (st : AppState) : AppState :=
  match st.lastCheckIn with
  | some t =>
      if st.isMeditating ∧ t ≠ 0 then
        if 5 * 60 * 1000 ≤ now - t then
          { st with
            messages := st.messages ++ [{ type := .therapist, content := checkInText }]
            lastCheckIn := some now }
        else st
      else st
  | none => st

/-- A wall-clock second on which both registered intervals are due.
`setInterval` callbacks due on the same tick run in registration order:
the countdown interval is registered at `startSession`, the check-in
interval at meditation start, so the countdown callback runs first. -/
def sameTick (now : Nat) (st : AppState) : AppState :=
  checkInTick now (countdownTick st)

/-- The transition message `startMeditation` appends on a successful track
fetch (`App.js` lines 307-311). -/
def meditationBeginText (sound : Sound) : String :=
  "Perfect choice. Let's begin with " ++ sound.name ++
    ". Just focus on your breathing and let the sounds wash over you."

/-- `startMeditation` (`App.js` lines 297-319): the sound selection, the
`isMeditating` flag and the transition to `meditation_active` happen
before the awaited `GET /api/music/{category}`; the track store, the
transition message and the `setLastCheckIn(Date.now())` baseline all sit
inside the `try` AFTER the await, so a failed fetch (`result = none`)
skips all three (its `catch` only logs). -/
def startMeditation (now : Nat) (st : AppState) (sound : Sound)
    (result : Option (List Track)) : AppState :=
  let s1 := { st with
    selectedSound := some sound
    isMeditating := true
    currentState := .meditation_active }
  match result with
  | some tracks =>
      { s1 with
        musicTracks := tracks
        messages := s1.messages ++
          [{ type := .therapist, content := meditationBeginText sound }]
        lastCheckIn := some now }
  | none => s1

/-- `generateTherapistResponse` (`App.js` lines 245-294). The awaited
`POST /api/generate-speech` call comes FIRST; everything observable — the
canned response pick, its append to the log, and the 3000 ms scheduled
transition to `meditation_selection` when the picked response mentions
meditation — sits inside the `try` after the await, so a thrown call
(`speechOk = false`) appends nothing and schedules nothing. `userInput`
is only interpolated into the synthesis prompt; `r` is the random index. -/
def generateTherapistResponse (st : AppState) (userInput : String)
    (speechOk : Bool) (r : Fin 5) : AppState :=
  if speechOk then
    let therapeuticResponse := responseAt r
    { st with
      messages := st.messages ++
        [{ type := .therapist, content := therapeuticResponse }]
      pendingMeditation :=
        st.pendingMeditation || strIncludes therapeuticResponse "meditation" }
  else st

/-- The transcript `useEffect` (`App.js` lines 354-366): when a non-empty
transcript arrives while in `active_session`, append it as a user message,
call `generateTherapistResponse` on it, and reset the transcript. -/
def transcriptEffect (st : AppState) (transcript : String) (speechOk : Bool)
    (r : Fin 5) : AppState :=
  if transcript ≠ "" ∧ st.currentState = .active_session then
    generateTherapistResponse
      { st with messages := st.messages ++ [{ type := .user, content := transcript }] }
      transcript speechOk r
  else st

/-- `MEDITATION_SOUNDS[i]` (in-bounds everywhere it is used). -/
def soundAt (i : Nat) : Sound :=
  MEDITATION_SOUNDS.getD i
    { id := "", name := "", description := "", icon := "", category := "" }

/-- The greeting `setTimeout` of `startSession` (`App.js` lines 206-208)
firing: it calls `generateTherapistResponse(greeting)` on the canned
greeting text. -/
def greetingTimeoutFire (st : AppState) (speechOk : Bool) (r : Fin 5) : AppState :=
  generateTherapistResponse { st with pendingGreeting := false } greetingText speechOk r

/-- The 3000 ms meditation-suggestion `setTimeout` of
`generateTherapistResponse` (`App.js` lines 286-288) firing: it moves the
machine to `meditation_selection`. -/
def meditationTimeoutFire (st : AppState) : AppState :=
  { st with pendingMeditation := false, currentState := .meditation_selection }

/-- A `timer_setup` state: the initial state after `confirmPersona`
(clicking the persona avatar sets `currentState := TIMER_SETUP`). -/
def timerSetupState : AppState :=
  { initialState with currentState := .timer_setup }

/-- The state right after a successful `startSession` (session id 42). -/
def activeState : AppState :=
  startSession timerSetupState (some 42)

/-- `activeState` after the greeting timeout picked canned response 2 (the
one recommending meditation) and the scheduled suggestion timeout fired:
the machine sits in `meditation_selection`. -/
def meditationSelectionState : AppState :=
  meditationTimeoutFire (greetingTimeoutFire activeState true 2)

/-- `meditationSelectionState` after `startMeditation` succeeded at
`Date.now() = 1000000` with the ocean sound: `meditation_active`, check-in
baseline 1000000, countdown still armed. -/
def meditatingState : AppState :=
  startMeditation 1000000 meditationSelectionState (soundAt 1) (some ["track0"])

/-- `meditatingState` 899 countdown seconds later, within the final second
of the session (the countdown alone only decrements `remainingTime`). -/
def meditatingNearEnd : AppState :=
  { meditatingState with remainingTime := 1 }

lemma VOICE_PERSONAS_length : VOICE_PERSONAS.length = 5 := rfl

lemma navigatePersona_lt (d : String) (i : Nat) (h : i < VOICE_PERSONAS.length) :
    navigatePersona d i < VOICE_PERSONAS.length := by
  rw [VOICE_PERSONAS_length] at h ⊢
  unfold navigatePersona
  rw [VOICE_PERSONAS_length]
  split
  · split
    · decide
    · omega
  · exact Nat.mod_lt _ (by decide)

lemma foldl_navigatePersona_lt (ds : List String) (i : Nat)
    (h : i < VOICE_PERSONAS.length) :
    List.foldl (fun acc d => navigatePersona d acc) i ds < VOICE_PERSONAS.length := by
  induction ds generalizing i with
  | nil => simpa using h
  | cons d ds ih => exact ih _ (navigatePersona_lt d i h)

lemma navigatePersona_left_right (i : Nat) (h : i < VOICE_PERSONAS.length) :
    navigatePersona "left" (navigatePersona "right" i) = i ∧
    navigatePersona "right" (navigatePersona "left" i) = i := by
  rw [VOICE_PERSONAS_length] at h
  interval_cases i <;> exact ⟨by decide, by decide⟩

/-- C9: for every sequence of `selectPersona` calls the persona index stays
inside the catalog bounds `[0, length - 1]`, wraps cyclically in both
directions (`left` at 0 gives `length - 1`, `right` at `length - 1` gives
0), and `left` and `right` are mutually inverse cyclic steps. -/
theorem claim_personaIndex_wraps (ds : List String) (i : Nat)
    (h : i < VOICE_PERSONAS.length) :
    List.foldl (fun acc d => navigatePersona d acc) i ds < VOICE_PERSONAS.length ∧
    navigatePersona "left" 0 = VOICE_PERSONAS.length - 1 ∧
    navigatePersona "right" (VOICE_PERSONAS.length - 1) = 0 ∧
    navigatePersona "left" (navigatePersona "right" i) = i ∧
    navigatePersona "right" (navigatePersona "left" i) = i :=
  ⟨foldl_navigatePersona_lt ds i h, by decide, by decide,
   (navigatePersona_left_right i h).1, (navigatePersona_left_right i h).2⟩

/-- C9 witness: the index invariant at the concrete sequence
`["left", "left", "right"]` from index 0. -/
theorem claim_personaIndex_wraps_witness :
    0 < VOICE_PERSONAS.length ∧
    (List.foldl (fun acc d => navigatePersona d acc) 0 ["left", "left", "right"] <
        VOICE_PERSONAS.length ∧
      navigatePersona "left" 0 = VOICE_PERSONAS.length - 1 ∧
      navigatePersona "right" (VOICE_PERSONAS.length - 1) = 0 ∧
      navigatePersona "left" (navigatePersona "right" 0) = 0 ∧
      navigatePersona "right" (navigatePersona "left" 0) = 0) :=
  ⟨by decide, claim_personaIndex_wraps ["left", "left", "right"] 0 (by decide)⟩

lemma navigatePersona_changes (d : String) (i : Nat)
    (h : i < VOICE_PERSONAS.length) :
    navigatePersona d i ≠ i ∧
    (speakIntroduction (navigatePersona d i)).message ≠
      (speakIntroduction i).message := by
  rw [VOICE_PERSONAS_length] at h
  by_cases hd : d = "left"
  · subst hd
    interval_cases i <;> exact ⟨by decide, by decide⟩
  · have hstep : navigatePersona d i = (i + 1) % VOICE_PERSONAS.length := by
      simp [navigatePersona, hd]
    rw [hstep]
    interval_cases i <;> exact ⟨by decide, by decide⟩

/-- C10: navigating the persona carousel fires the spoken self-introduction
for the persona index as it was BEFORE the navigation (the render closure
still holds the pre-advance `selectedPersona`), so the synthesized
introduction names the previously selected persona, which is never the
newly displayed one. -/
theorem claim_intro_preAdvance_index (st : AppState) (d : String)
    (h : st.selectedPersona < VOICE_PERSONAS.length) :
    (navigatePersonaEvent st d).2 = speakIntroduction st.selectedPersona ∧
    (navigatePersonaEvent st d).1.selectedPersona =
      navigatePersona d st.selectedPersona ∧
    (navigatePersonaEvent st d).1.selectedPersona ≠ st.selectedPersona ∧
    (navigatePersonaEvent st d).2.message ≠
      (speakIntroduction (navigatePersonaEvent st d).1.selectedPersona).message :=
  ⟨rfl, rfl, (navigatePersona_changes d st.selectedPersona h).1,
   ((navigatePersona_changes d st.selectedPersona h).2).symm⟩

/-- C10 witness: navigating right from the initial state speaks the
introduction of persona 0 while displaying persona 1. -/
theorem claim_intro_preAdvance_index_witness :
    initialState.selectedPersona < VOICE_PERSONAS.length ∧
    ((navigatePersonaEvent initialState "right").2 =
        speakIntroduction initialState.selectedPersona ∧
      (navigatePersonaEvent initialState "right").1.selectedPersona =
        navigatePersona "right" initialState.selectedPersona ∧
      (navigatePersonaEvent initialState "right").1.selectedPersona ≠
        initialState.selectedPersona ∧
      (navigatePersonaEvent initialState "right").2.message ≠
        (speakIntroduction
          (navigatePersonaEvent initialState "right").1.selectedPersona).message) :=
  ⟨by decide, claim_intro_preAdvance_index initialState "right" (by decide)⟩

/-- C6 counterexample: with "clip1" sounding, a new request for "clip2"
immediately replaces it — the sounding clip is interrupted, not finished —
whereas the spec's queue keeps "clip1" sounding and only fills the
pending-next slot. -/
theorem claim_audio_counterexample :
    (playAudioFromBase64 { playing := some "clip1" } "clip2" true).playing ≠
      some "clip1" ∧
    (playAudioFromBase64 { playing := some "clip1" } "clip2" true).playing =
      some "clip2" ∧
    (enqueueClipSpec { playing := some "clip1", pendingNext := none } "clip2") =
      { playing := some "clip1", pendingNext := some "clip2" } :=
  ⟨by decide, rfl, rfl⟩

/-- C6 amended: at most one clip plays at a time (one shared audio
element), but a successfully decoded request immediately replaces whatever
clip was sounding — last request wins at once, with no pending-next slot
and no waiting for the current clip to finish; a failed decode leaves
playback untouched. -/
theorem claim_audio_lastRequestWins (el : AudioElement) (clip : String) :
    (playAudioFromBase64 el clip true).playing = some clip ∧
    playAudioFromBase64 el clip false = el :=
  ⟨rfl, rfl⟩

/-- Of the five canned responses, exactly the one at index 2 contains the
word "meditation". -/
lemma responseAt_mentions_meditation (r : Fin 5) :
    strIncludes (responseAt r) "meditation" = decide (r.val = 2) := by
  fin_cases r <;> decide

/-- Modelled from the spec (section 4.5): the stress-indicator vocabulary
the Response Policy is said to match case-insensitively. No such
vocabulary exists anywhere in the code; these are representative stress
indicators in the sense of the prompt's own wording ("If user seems
stressed/anxious"). -/
def stressVocabulary : List String :=
  ["stressed", "anxious", "overwhelmed", "worried", "panic"]

/-- Modelled from the spec (section 4.5): recommend meditation exactly when
the user turn case-insensitively contains a stress-indicator word, or
otherwise on the documented residual random coin. -/
def recommendsMeditationSpec (text : String) (residualCoin : Bool) : Bool :=
  stressVocabulary.any (fun w => strIncludes (lowerStr text) w) || residualCoin

/-- C8 counterexample: for the turn "I am so stressed and anxious today"
the spec's rule recommends meditation whatever the residual coin says
(the keyword branch hits), yet the code, drawing random index 0, does not
schedule any meditation suggestion — the code's decision ignores the user
turn text. -/
theorem claim_policy_counterexample :
    recommendsMeditationSpec "I am so stressed and anxious today" false = true ∧
    (generateTherapistResponse activeState "I am so stressed and anxious today"
        true 0).pendingMeditation = false := by
  constructor
  · decide
  · decide

/-- C8 amended: the meditation recommendation is independent of the user
turn text — on a successful call it is scheduled exactly when the random
index draws the one canned response (index 2) that contains "meditation",
the same for any two turn texts. -/
theorem claim_policy_randomOnly (st : AppState) (input1 input2 : String)
    (r : Fin 5) :
    (generateTherapistResponse st input1 true r).pendingMeditation =
      (st.pendingMeditation || decide (r.val = 2)) ∧
    (generateTherapistResponse st input1 true r).pendingMeditation =
      (generateTherapistResponse st input2 true r).pendingMeditation := by
  refine ⟨?_, rfl⟩
  simp [generateTherapistResponse, responseAt_mentions_meditation r]

/-- Count of the log's messages carrying a given role. -/
def countRole (ro : Role) (msgs : List Message) : Nat :=
  (msgs.filter (fun m => decide (m.type = ro))).length

/-- C3 counterexample: a user turn arriving in `active_session` whose
`generate-speech` call fails appends the user Message and then NOTHING:
zero therapist replies and zero error/system Messages — the failure path
only logs to the console, and the reply text append sits after the failed
await. -/
theorem claim_turnReply_counterexample :
    (transcriptEffect activeState "I had a rough day" false 0).messages =
      activeState.messages ++ [{ type := .user, content := "I had a rough day" }] ∧
    countRole .therapist (transcriptEffect activeState "I had a rough day" false 0).messages =
      countRole .therapist activeState.messages ∧
    countRole .system (transcriptEffect activeState "I had a rough day" false 0).messages =
      countRole .system activeState.messages := by
  refine ⟨?_, ?_, ?_⟩ <;> decide

/-- C3 amended: a non-empty user turn in `active_session` appends exactly
the user Message plus, when the speech/policy call succeeds, exactly one
therapist reply; when the call fails it appends no further Message at all
(no reply and no error Message). -/
theorem claim_turnReply_perTurn (st : AppState) (t : String) (ok : Bool)
    (r : Fin 5) (h1 : st.currentState = .active_session) (h2 : t ≠ "") :
    (transcriptEffect st t ok r).messages =
      st.messages ++ [{ type := .user, content := t }] ++
        (if ok then [{ type := .therapist, content := responseAt r }] else []) := by
  unfold transcriptEffect
  rw [if_pos ⟨h2, h1⟩]
  cases ok with
  | true => simp [generateTherapistResponse]
  | false => simp [generateTherapistResponse]

/-- C3 witness: one user turn with a successful call appends the user
Message and exactly one therapist reply. -/
theorem claim_turnReply_perTurn_witness :
    (activeState.currentState = .active_session ∧ "hello" ≠ "") ∧
    (transcriptEffect activeState "hello" true 1).messages =
      activeState.messages ++ [{ type := .user, content := "hello" }] ++
        (if true then [{ type := .therapist, content := responseAt 1 }] else []) :=
  ⟨⟨rfl, by decide⟩, claim_turnReply_perTurn activeState "hello" true 1 rfl (by decide)⟩

/-- C4 counterexample: when the `POST /api/session` call fails, the user
sees no error message — the log stays empty (and in particular holds no
system/error Message); the `catch` only writes to the console. -/
theorem claim_startFailure_counterexample :
    startSession timerSetupState none = timerSetupState ∧
    (startSession timerSetupState none).messages = [] ∧
    countRole .system (startSession timerSetupState none).messages = 0 := by
  refine ⟨rfl, rfl, rfl⟩

/-- C4 amended: a failed session creation aborts the transition — the
machine stays in `timer_setup` and no session state is mutated (no Session
record, no timer armed, no channel opened, no capture started, message log
untouched) — but no error Message is surfaced: the failure is only logged
to the console. -/
theorem claim_startFailure_aborts (st : AppState)
    (h : st.currentState = .timer_setup) :
    (startSession st none).currentState = .timer_setup ∧
    (startSession st none).currentSession = st.currentSession ∧
    (startSession st none).timerArmed = st.timerArmed ∧
    (startSession st none).wsOpen = st.wsOpen ∧
    (startSession st none).listening = st.listening ∧
    (startSession st none).messages = st.messages ∧
    startSession st none = st :=
  ⟨h, rfl, rfl, rfl, rfl, rfl, rfl⟩

/-- C4 witness: the aborted transition at the concrete `timer_setup`
state. -/
theorem claim_startFailure_aborts_witness :
    timerSetupState.currentState = .timer_setup ∧
    ((startSession timerSetupState none).currentState = .timer_setup ∧
      (startSession timerSetupState none).currentSession =
        timerSetupState.currentSession ∧
      (startSession timerSetupState none).timerArmed = timerSetupState.timerArmed ∧
      (startSession timerSetupState none).wsOpen = timerSetupState.wsOpen ∧
      (startSession timerSetupState none).listening = timerSetupState.listening ∧
      (startSession timerSetupState none).messages = timerSetupState.messages ∧
      startSession timerSetupState none = timerSetupState) :=
  ⟨rfl, claim_startFailure_aborts timerSetupState rfl⟩

/-- C7 counterexample: when the track fetch fails, `startMeditation` does
reach `meditation_active`, but the transition Message is NOT appended and
the CheckInClock is NOT reset (both sit after the failed await), so the
armed check-in interval never fires — contradicting the claim that the
Message and the clock reset still complete. -/
theorem claim_soundSelect_counterexample :
    (startMeditation 1300000 meditationSelectionState (soundAt 2) none).currentState =
      .meditation_active ∧
    (startMeditation 1300000 meditationSelectionState (soundAt 2) none).messages =
      meditationSelectionState.messages ∧
    (startMeditation 1300000 meditationSelectionState (soundAt 2) none).lastCheckIn =
      none ∧
    checkInTick 1900000 (startMeditation 1300000 meditationSelectionState (soundAt 2) none) =
      startMeditation 1300000 meditationSelectionState (soundAt 2) none := by
  refine ⟨rfl, rfl, rfl, rfl⟩

/-- C7 amended: `selectSound` always completes the state transition to
`meditation_active` (it happens before the fetch); on a successful fetch
it stores the tracks, appends the transition Message and resets the
CheckInClock to now, but on a failed fetch it does none of the three — the
session degrades to silence with no transition Message and no armed
check-in baseline (with no prior baseline, check-in ticks are no-ops). -/
theorem claim_soundSelect_transition (now : Nat) (st : AppState) (sound : Sound)
    (result : Option (List Track)) :
    (startMeditation now st sound result).currentState = .meditation_active ∧
    (startMeditation now st sound result).isMeditating = true ∧
    (startMeditation now st sound result).selectedSound = some sound ∧
    (startMeditation now st sound result).messages =
      st.messages ++
        (match result with
          | some _ => [{ type := .therapist, content := meditationBeginText sound }]
          | none => []) ∧
    (startMeditation now st sound result).lastCheckIn =
      (match result with
        | some _ => some now
        | none => st.lastCheckIn) ∧
    (result = none → st.lastCheckIn = none →
      ∀ t, checkInTick t (startMeditation now st sound result) =
        startMeditation now st sound result) := by
  cases result with
  | some tracks =>
      refine ⟨rfl, rfl, rfl, rfl, rfl, ?_⟩
      intro hcon
      exact absurd hcon (by simp)
  | none =>
      refine ⟨rfl, rfl, rfl, by simp [startMeditation], rfl, ?_⟩
      intro _ hlast t
      simp [checkInTick, startMeditation, hlast]

/-- C7 witness: the failed-fetch transition at the concrete
`meditation_selection` state, including that a later check-in tick is a
no-op. -/
theorem claim_soundSelect_transition_witness :
    (startMeditation 1000 meditationSelectionState (soundAt 0) none).currentState =
      .meditation_active ∧
    checkInTick 700000 (startMeditation 1000 meditationSelectionState (soundAt 0) none) =
      startMeditation 1000 meditationSelectionState (soundAt 0) none :=
  ⟨(claim_soundSelect_transition 1000 meditationSelectionState (soundAt 0) none).1,
   (claim_soundSelect_transition 1000 meditationSelectionState (soundAt 0) none).2.2.2.2.2
     rfl rfl 700000⟩

lemma countdownTick_disarmed (st : AppState) (h : st.timerArmed = false) :
    countdownTick st = st := by
  simp [countdownTick, h]

lemma countdownTick_decrement (st : AppState) (h : st.timerArmed = true)
    (h2 : 2 ≤ st.remainingTime) :
    countdownTick st = { st with remainingTime := st.remainingTime - 1 } := by
  have hnot : ¬ st.remainingTime ≤ 1 := by omega
  simp [countdownTick, h, hnot]

lemma countdownTick_expire (st : AppState) (h : st.timerArmed = true)
    (h2 : st.remainingTime ≤ 1) :
    countdownTick st = { endSession st with remainingTime := 0 } := by
  simp [countdownTick, h, h2]

lemma countdownTick_run (k : Nat) (st : AppState) (h : st.timerArmed = true)
    (hk : k < st.remainingTime) :
    countdownTick^[k] st = { st with remainingTime := st.remainingTime - k } := by
  induction k generalizing st with
  | zero => simp
  | succ k ih =>
      rw [Function.iterate_succ_apply]
      have h2 : 2 ≤ st.remainingTime := by omega
      rw [countdownTick_decrement st h h2]
      rw [ih { st with remainingTime := st.remainingTime - 1 } h (by simp; omega)]
      have harith : st.remainingTime - 1 - k = st.remainingTime - (k + 1) := by omega
      show { st with remainingTime := st.remainingTime - 1 - k } = _
      rw [harith]

lemma countdownTick_expires_at (st : AppState) (h : st.timerArmed = true)
    (hpos : 1 ≤ st.remainingTime) :
    countdownTick^[st.remainingTime] st = { endSession st with remainingTime := 0 } := by
  obtain ⟨n, hn⟩ : ∃ n, st.remainingTime = n + 1 := ⟨st.remainingTime - 1, by omega⟩
  rw [hn, Function.iterate_succ_apply']
  rw [countdownTick_run n st h (by omega)]
  rw [countdownTick_expire { st with remainingTime := st.remainingTime - n } h
    (by show st.remainingTime - n ≤ 1; omega)]
  cases st
  rfl

/-- C5: a successful `startSession` with `m` configured minutes initializes
`remainingTime` to `m * 60`; while armed, every countdown tick decrements
it by exactly one; on the tick that reaches zero, `endSession` fires (the
final state is exactly `endSession` of the running state, with
`remainingTime` stored as 0, the timer disarmed and the closing Message
appended once); and every further tick is a no-op, so `endSession` fires
exactly once. -/
theorem claim_countdown (st : AppState) (sid : Nat)
    (hpos : 1 ≤ st.sessionMinutes) :
    (startSession st (some sid)).remainingTime = st.sessionMinutes * 60 ∧
    (∀ k, k < st.sessionMinutes * 60 →
      (countdownTick^[k] (startSession st (some sid))).remainingTime =
          st.sessionMinutes * 60 - k ∧
        (countdownTick^[k] (startSession st (some sid))).timerArmed = true) ∧
    countdownTick^[st.sessionMinutes * 60] (startSession st (some sid)) =
      { endSession (startSession st (some sid)) with remainingTime := 0 } ∧
    (countdownTick^[st.sessionMinutes * 60] (startSession st (some sid))).timerArmed =
      false ∧
    (countdownTick^[st.sessionMinutes * 60] (startSession st (some sid))).messages =
      [{ type := .therapist, content := greetingText },
       { type := .therapist, content := closingText }] ∧
    (∀ j, countdownTick^[st.sessionMinutes * 60 + j] (startSession st (some sid)) =
      countdownTick^[st.sessionMinutes * 60] (startSession st (some sid))) := by
  have harm : (startSession st (some sid)).timerArmed = true := rfl
  have hrem : (startSession st (some sid)).remainingTime = st.sessionMinutes * 60 := rfl
  have hexp : countdownTick^[st.sessionMinutes * 60] (startSession st (some sid)) =
      { endSession (startSession st (some sid)) with remainingTime := 0 } := by
    have := countdownTick_expires_at (startSession st (some sid)) harm
      (by rw [hrem]; omega)
    rwa [hrem] at this
  refine ⟨rfl, ?_, hexp, ?_, ?_, ?_⟩
  · intro k hk
    have hrun := countdownTick_run k (startSession st (some sid)) harm
      (by rw [hrem]; omega)
    rw [hrun]
    exact ⟨rfl, rfl⟩
  · rw [hexp]
    rfl
  · rw [hexp]
    rfl
  · intro j
    induction j with
    | zero => rfl
    | succ j ihj =>
        have hsucc : st.sessionMinutes * 60 + (j + 1) =
            (st.sessionMinutes * 60 + j) + 1 := rfl
        rw [hsucc, Function.iterate_succ_apply', ihj, hexp,
          countdownTick_disarmed _ rfl]

/-- C5 witness: the full countdown contract at the concrete `timer_setup`
state (15 configured minutes, so 900 initial seconds). -/
theorem claim_countdown_witness :
    1 ≤ timerSetupState.sessionMinutes ∧
    ((startSession timerSetupState (some 7)).remainingTime =
        timerSetupState.sessionMinutes * 60 ∧
      (∀ k, k < timerSetupState.sessionMinutes * 60 →
        (countdownTick^[k] (startSession timerSetupState (some 7))).remainingTime =
            timerSetupState.sessionMinutes * 60 - k ∧
          (countdownTick^[k] (startSession timerSetupState (some 7))).timerArmed =
            true) ∧
      countdownTick^[timerSetupState.sessionMinutes * 60]
          (startSession timerSetupState (some 7)) =
        { endSession (startSession timerSetupState (some 7)) with
            remainingTime := 0 } ∧
      (countdownTick^[timerSetupState.sessionMinutes * 60]
          (startSession timerSetupState (some 7))).timerArmed = false ∧
      (countdownTick^[timerSetupState.sessionMinutes * 60]
          (startSession timerSetupState (some 7))).messages =
        [{ type := .therapist, content := greetingText },
         { type := .therapist, content := closingText }] ∧
      (∀ j, countdownTick^[timerSetupState.sessionMinutes * 60 + j]
          (startSession timerSetupState (some 7)) =
        countdownTick^[timerSetupState.sessionMinutes * 60]
          (startSession timerSetupState (some 7)))) :=
  ⟨by decide, claim_countdown timerSetupState 7 (by decide)⟩

/-- C1 at a failing input: `endSession()` from `meditation_active` (with
the check-in baseline 299 s old) disarms the countdown, closes the channel
and stops capture, but leaves the check-in interval armed (`isMeditating`
and `lastCheckIn` survive until the settle reset), so the very next
interval second — inside the 3 s settle window — still appends a check-in
Message and mutates the baseline: a dangling timer callback after
`endSession`. The settle reset itself does restore `voice_selection`,
persona 0, the 15-minute default, a cleared Session and an empty log. -/
theorem claim_endSession_dangling_checkIn :
    (endSession meditatingState).timerArmed = false ∧
    (endSession meditatingState).wsOpen = false ∧
    (endSession meditatingState).listening = false ∧
    (endSession meditatingState).isMeditating = true ∧
    (endSession meditatingState).lastCheckIn = some 1000000 ∧
    (checkInTick 1300000 (endSession meditatingState)).messages =
      (endSession meditatingState).messages ++
        [{ type := .therapist, content := checkInText }] ∧
    (checkInTick 1300000 (endSession meditatingState)).lastCheckIn = some 1300000 ∧
    (sessionReset (checkInTick 1300000 (endSession meditatingState))).currentState =
      .voice_selection ∧
    (sessionReset (checkInTick 1300000 (endSession meditatingState))).selectedPersona =
      0 ∧
    (sessionReset (checkInTick 1300000 (endSession meditatingState))).sessionMinutes =
      15 ∧
    (sessionReset (checkInTick 1300000 (endSession meditatingState))).currentSession =
      none ∧
    (sessionReset (checkInTick 1300000 (endSession meditatingState))).messages = [] := by
  refine ⟨rfl, rfl, rfl, rfl, rfl, ?_, ?_, rfl, rfl, rfl, rfl, rfl⟩ <;> decide

/-- C2 at a failing input: in `meditation_active` with one countdown second
left and the check-in due on the same tick, the countdown callback (which
runs first, being the earlier-registered interval) ends the session and
appends the closing Message — and the check-in callback of that same tick
STILL appends its check-in Message, because `endSession` never clears the
check-in interval; in the opposite callback order both Messages appear
too. The claimed tie-break (check-in dropped) does not exist. -/
theorem claim_sameTick_both_messages :
    (sameTick 1300000 meditatingNearEnd).messages =
      meditatingNearEnd.messages ++
        [{ type := .therapist, content := closingText },
         { type := .therapist, content := checkInText }] ∧
    (countdownTick (checkInTick 1300000 meditatingNearEnd)).messages =
      meditatingNearEnd.messages ++
        [{ type := .therapist, content := checkInText },
         { type := .therapist, content := closingText }] := by
  refine ⟨?_, ?_⟩ <;> decide
